import Mathlib

/-!
# Settings :: privacy and security

A shallow embedding of `Telegram/SourceFiles/settings/settings_privacy_security.cpp`.

* Side effects (`Ui::show`, `Auth().api().…`) are recorded as a list of `Action`s, in the
  order the code performs them.
* An `rpl::producer<T>` is represented by the finite list of values it has delivered so far,
  oldest first.
* `Assert(cond)` failing is the result `none`.
-/

namespace Settings

/-! ## Collaborator types (declared in headers outside this file) -/

/-- Modelled from the spec: `QString` (Qt) is represented by `String`. -/
abbrev QString := String

/-- Modelled from the spec: `QString::isEmpty()`, true exactly when the string has no
characters. -/
def QString.isEmpty (s : QString) : Bool := s.length == 0

/-- Modelled from the spec: `QString::number(n)` for a non-negative container size, the decimal
representation. -/
def QString.number (n : Nat) : QString := Nat.repr n

/-- Modelled from the spec: `QStringList::join(sep)`, the elements in order with `sep` between
neighbours. -/
def QStringList.join : List QString → QString → QString
  | [], _ => ""
  | [s], _ => s
  | s :: t :: rest, sep => s ++ sep ++ QStringList.join (t :: rest) sep

/-- Modelled from the spec: `Core::CloudPasswordCheckRequest` (core/core_cloud_password.h),
"opaque credential-verification parameters, present iff a password is set". `none` is the value
whose `operator bool` is false. -/
abbrev CloudPasswordCheckRequest := Option Nat

/-- Modelled from the spec: `Core::CloudPasswordAlgo`, a capability descriptor; `none` is the
value whose `operator bool` is false. -/
abbrev CloudPasswordAlgo := Option Nat

/-- Modelled from the spec: `Core::SecureSecretAlgo`, a capability descriptor; `none` is the
value whose `operator bool` is false. -/
abbrev SecureSecretAlgo := Option Nat

/-- Modelled from the spec: `Core::CloudPasswordState` (core/core_cloud_password.h), the fields
this file reads. -/
structure CloudPasswordState where
  request : CloudPasswordCheckRequest
  unknownAlgorithm : Bool
  hasRecovery : Bool
  notEmptyPassport : Bool
  newPassword : CloudPasswordAlgo
  newSecureSecret : SecureSecretAlgo
  hint : QString
  unconfirmedPattern : QString
  deriving DecidableEq, Repr

/-- The language keys this file uses. -/
inductive LangKey
  | lng_edit_privacy_everyone
  | lng_edit_privacy_contacts
  | lng_edit_privacy_nobody
  | lng_passport_app_out_of_date
  | lng_menu_update
  deriving DecidableEq, Repr

/-- Modelled from the spec: the English language pack for the privacy option labels, as the
spec's examples spell them ("Everyone", "Contacts", "Nobody"). -/
def langEn : LangKey → QString
  | .lng_edit_privacy_everyone => "Everyone"
  | .lng_edit_privacy_contacts => "Contacts"
  | .lng_edit_privacy_nobody => "Nobody"
  | .lng_passport_app_out_of_date => "Please update the application"
  | .lng_menu_update => "Update"

/-- The `ApiWrap::Privacy::Option` enumeration. -/
inductive PrivacyOption
  | Everyone
  | Contacts
  | Nobody
  deriving DecidableEq, Repr

/-- Modelled from the spec: `ApiWrap::Privacy`, an option with the two override lists of
users (represented by their identifiers). -/
structure Privacy where
  option : PrivacyOption
  always : List Nat
  never : List Nat
  deriving DecidableEq, Repr

/-- The arguments of the `PasscodeBox` constructor used for the cloud password; the last
argument (`turningOff`) defaults to `false`. -/
structure PasscodeBoxArgs where
  request : CloudPasswordCheckRequest
  newPassword : CloudPasswordAlgo
  hasRecovery : Bool
  notEmptyPassport : Bool
  hint : QString
  newSecureSecret : SecureSecretAlgo
  turningOff : Bool
  deriving DecidableEq, Repr

/-- The observable effects of the functions embedded here. -/
inductive Action
  | clearUnconfirmedPassword
  | reloadPasswordState
  | showPasscodeBox (args : PasscodeBoxArgs)
  | showConfirmBox (text button : LangKey)
  deriving DecidableEq, Repr

/-- What the cloud-password `PasscodeBox` emits while it lives: `newPasswordSet()` carries the
new password bytes, `passwordReloadNeeded()` carries nothing. -/
inductive BoxEvent
  | newPasswordSet (password : List Nat)
  | passwordReloadNeeded
  deriving DecidableEq, Repr

/-- The `Qt::ApplicationState` enumeration. -/
inductive ApplicationState
  | ApplicationSuspended
  | ApplicationHidden
  | ApplicationInactive
  | ApplicationActive
  deriving DecidableEq, Repr

/-! ## The rpl operators used by this file -/

namespace rpl

/-- Modelled from the spec: `rpl::single(v)`, delivers `v` once. -/
def single {α : Type} (v : α) : List α := [v]

/-- Modelled from the spec: `a | rpl::then(b)`, the values of `a` followed by those of `b`. -/
def «then» {α : Type} (a b : List α) : List α := a ++ b

/-- Modelled from the spec: `rpl::map(f)`. -/
def map {α β : Type} (f : α → β) (p : List α) : List β := List.map f p

/-- Modelled from the spec: the state machine of `rpl::distinct_until_changed()`: `previous` is
the last value passed on, and a value is passed on when there is no previous one or when it differs from it. -/
def distinctFrom {α : Type} [DecidableEq α] : Option α → List α → List α
  | _, [] => []
  | previous, v :: rest =>
    if previous = some v then distinctFrom previous rest
    else v :: distinctFrom (some v) rest

/-- Modelled from the spec: `rpl::distinct_until_changed()`, "identical consecutive derived
values must not re-trigger" what is downstream. -/
def distinct_until_changed {α : Type} [DecidableEq α] (p : List α) : List α :=
  distinctFrom none p

/-- Modelled from the spec: `rpl::start_with_next(handler, lifetime)`: the handler runs once
for each value delivered, in order; the result is everything the handler did. -/
def start_with_next {α : Type} (handler : α → List Action) (p : List α) : List Action :=
  (List.map handler p).flatten

end rpl

/-! ## SetupPrivacy -/

/-- The `base` lambda inside `PrivacyString`: the language key of the option. -/
def PrivacyString.base (value : Privacy) : LangKey :=
  match value.option with
  | .Everyone => .lng_edit_privacy_everyone
  | .Contacts => .lng_edit_privacy_contacts
  | .Nobody => .lng_edit_privacy_nobody

/-- The mapping applied by `PrivacyString` to each privacy value (the lambda given to
`rpl::map`); `lang` is the language lookup. -/
def PrivacyString (lang : LangKey → QString) (value : Privacy) : QString :=
  let base := PrivacyString.base value
  let add : List QString := []
  let never := value.never.length
  let add := if never ≠ 0 then add ++ ["-" ++ QString.number never] else add
  let always := value.always.length
  let add := if always ≠ 0 then add ++ ["+" ++ QString.number always] else add
  if !add.isEmpty then
    lang base ++ " (" ++ QStringList.join add ", " ++ ")"
  else
    lang base

/-! ## SetupLocalPasscode -/

/-- The mapping that produces the auto-lock label (the lambda given to `rpl::map` for `value`).
`autolock` is the C++ `int` returned by `Global::AutoLock()`, so `%` and `/` truncate towards
zero. The two phrase functions `lng_passcode_autolock_minutes(lt_count, ·)` and
`lng_passcode_autolock_hours(lt_count, ·)` belong to the language pack and are parameters. -/
def autolockValue (lng_passcode_autolock_minutes lng_passcode_autolock_hours : Int → QString)
    (autolock : Int) : QString :=
  if Int.tmod autolock 3600 ≠ 0 then
    lng_passcode_autolock_minutes (Int.tdiv autolock 60)
  else
    lng_passcode_autolock_hours (Int.tdiv autolock 3600)

/-! ## Cloud password -/

/-- The function `CheckEditCloudPassword`: `current` is `Auth().api().passwordStateCurrent()`.
The result is the returned boolean with the effects performed. -/
def CheckEditCloudPassword (current : Option CloudPasswordState) : Option (Bool × List Action) :=
  match current with
  | none => none
  | some current =>
    if !current.unknownAlgorithm
        && current.newPassword.isSome
        && current.newSecureSecret.isSome then
      some (true, [])
    else
      some (false, [Action.showConfirmBox .lng_passport_app_out_of_date .lng_menu_update])

/-- The subscription both `EditCloudPassword` and `RemoveCloudPassword` attach to their box:
`rpl::merge(newPasswordSet() | map(→ empty_value), passwordReloadNeeded())` followed by
`start_with_next` of a handler that reloads the password state. `events` is what the box emits,
in the order of emission. -/
def boxSubscription (events : List BoxEvent) : List Action :=
  let merged : List Unit := rpl.map
    (fun e => match e with
      | .newPasswordSet _ => ()
      | .passwordReloadNeeded => ())
    events
  rpl.start_with_next (fun _ => [Action.reloadPasswordState]) merged

/-- The function `EditCloudPassword`; `events` is what the opened box emits during its
lifetime. -/
def EditCloudPassword (current : Option CloudPasswordState) (events : List BoxEvent) :
    Option (List Action) :=
  match current with
  | none => none
  | some current =>
    some (Action.showPasscodeBox
        { request := current.request
          newPassword := current.newPassword
          hasRecovery := current.hasRecovery
          notEmptyPassport := current.notEmptyPassport
          hint := current.hint
          newSecureSecret := current.newSecureSecret
          turningOff := false }
      :: boxSubscription events)

/-- The function `RemoveCloudPassword`; `events` is what the opened box (if any) emits during
its lifetime. -/
def RemoveCloudPassword (current : Option CloudPasswordState) (events : List BoxEvent) :
    Option (List Action) :=
  match current with
  | none => none
  | some current =>
    if !current.request.isSome then
      some [Action.clearUnconfirmedPassword]
    else
      some (Action.showPasscodeBox
          { request := current.request
            newPassword := current.newPassword
            hasRecovery := current.hasRecovery
            notEmptyPassport := current.notEmptyPassport
            hint := current.hint
            newSecureSecret := current.newSecureSecret
            turningOff := true }
        :: boxSubscription events)

/-- The lambda that maps a state to "has cloud password" in `SetupCloudPassword`. -/
def SetupCloudPassword.hasOfState (state : CloudPasswordState) : Bool :=
  state.request.isSome
    || state.unknownAlgorithm
    || !state.unconfirmedPattern.isEmpty

/-- The stream `has` of `SetupCloudPassword`; `passwordState` is what
`Auth().api().passwordState()` has delivered. -/
def SetupCloudPassword.has (passwordState : List CloudPasswordState) : List Bool :=
  rpl.distinct_until_changed
    (rpl.then (rpl.single false) (rpl.map SetupCloudPassword.hasOfState passwordState))

/-- The stream `pattern` of `SetupCloudPassword`. -/
def SetupCloudPassword.pattern (passwordState : List CloudPasswordState) : List QString :=
  rpl.map (fun state => state.unconfirmedPattern) passwordState

/-- The stream `unconfirmed` of `SetupCloudPassword`. -/
def SetupCloudPassword.unconfirmed (passwordState : List CloudPasswordState) : List Bool :=
  rpl.then (rpl.single true)
    (rpl.map (fun pattern => !QString.isEmpty pattern)
      (SetupCloudPassword.pattern passwordState))

/-- The stream given to `change->toggleOn`: `unconfirmed` negated. -/
def SetupCloudPassword.changeToggle (passwordState : List CloudPasswordState) : List Bool :=
  rpl.map (fun unconfirmed => !unconfirmed) (SetupCloudPassword.unconfirmed passwordState)

/-- Modelled from the spec: `Ui::SlideWrap::toggleOn(stream)` followed by `toggled()`: the
wrap starts shown and every delivered value sets its visibility, so `toggled()` is the last
value delivered. -/
def SlideWrap.toggled (stream : List Bool) : Bool :=
  List.foldl (fun _ shown => shown) true stream

/-- The lambda `reloadOnActivation` of `SetupCloudPassword`; `labelToggled` is
`label->toggled()` at the time of the signal. -/
def SetupCloudPassword.reloadOnActivation (labelToggled : Bool) (state : ApplicationState) :
    List Action :=
  if labelToggled && state == ApplicationState.ApplicationActive then
    [Action.reloadPasswordState]
  else
    []

/-! ## The three password situations of the data model -/

/-- The state has no password: `request` is absent (the guard `!current->request` of
`RemoveCloudPassword`). -/
def noPassword (state : CloudPasswordState) : Bool := !state.request.isSome

/-- The state is unconfirmed: `unconfirmedPattern` is non-empty (the mapping of the
`unconfirmed` stream). -/
def isUnconfirmed (state : CloudPasswordState) : Bool := !QString.isEmpty state.unconfirmedPattern

/-- The state is confirmed: `request` is present and `unconfirmedPattern` is empty. -/
def isConfirmed (state : CloudPasswordState) : Bool :=
  state.request.isSome && QString.isEmpty state.unconfirmedPattern

/-- Exactly one of three booleans is true. -/
def exactlyOne (a b c : Bool) : Bool :=
  (a && !b && !c) || (!a && b && !c) || (!a && !b && c)

/-- The state of the spec's end-to-end example: no request, a pending confirmation pattern. -/
def pendingState : CloudPasswordState :=
  { request := none
    unknownAlgorithm := false
    hasRecovery := false
    notEmptyPassport := false
    newPassword := some 1
    newSecureSecret := some 2
    hint := ""
    unconfirmedPattern := "a***@b.com" }

/-- Modelled from the spec: `Auth().api().passwordStateCurrent()`, the store's current value:
"none before first successful fetch", afterwards the latest state its stream delivered. -/
def passwordStateCurrent (passwordState : List CloudPasswordState) : Option CloudPasswordState :=
  passwordState.getLast?

/-- Modelled from the spec: the English phrase "<n> minutes" of
`lng_passcode_autolock_minutes`. -/
def lng_passcode_autolock_minutes_en (count : Int) : QString := toString count ++ " minutes"

/-- Modelled from the spec: the English phrase "<n> hours" of `lng_passcode_autolock_hours`. -/
def lng_passcode_autolock_hours_en (count : Int) : QString := toString count ++ " hours"

/-- A state with a confirmed password and full capabilities. -/
def confirmedState : CloudPasswordState :=
  { request := some 7
    unknownAlgorithm := false
    hasRecovery := true
    notEmptyPassport := false
    newPassword := some 1
    newSecureSecret := some 2
    hint := "hint"
    unconfirmedPattern := "" }

/-- A stream never delivers the same value twice in a row. -/
def noRepeat : List Bool → Bool
  | [] => true
  | [_] => true
  | a :: b :: rest => a != b && noRepeat (b :: rest)

/-! ## Basic facts -/

theorem QString.isEmpty_iff (s : QString) : QString.isEmpty s = true ↔ s = "" := by
  constructor
  · intro h
    have h1 : s.length = 0 := by simpa [QString.isEmpty] using h
    have h2 : s.data = [] := List.length_eq_zero.mp h1
    exact String.ext h2
  · intro h
    subst h
    rfl

theorem QString.isEmpty_eq_false_iff (s : QString) : QString.isEmpty s = false ↔ s ≠ "" := by
  have h := QString.isEmpty_iff s
  constructor
  · intro hf he
    rw [h.mpr he] at hf
    exact Bool.noConfusion hf
  · intro hne
    cases hb : QString.isEmpty s
    · rfl
    · exact absurd (h.mp hb) hne

theorem boxSubscription_eq (events : List BoxEvent) :
    boxSubscription events = List.replicate events.length Action.reloadPasswordState := by
  induction events with
  | nil => rfl
  | cons e rest ih =>
    simp only [boxSubscription, rpl.map, rpl.start_with_next, List.map_cons, List.flatten_cons,
      List.length_cons, List.replicate_succ, List.singleton_append] at ih ⊢
    rw [ih]

theorem noRepeat_distinctFrom (previous : Option Bool) (stream : List Bool) :
    noRepeat (rpl.distinctFrom previous stream) = true
      ∧ ∀ x, (rpl.distinctFrom previous stream).head? = some x → previous ≠ some x := by
  induction stream generalizing previous with
  | nil => simp [rpl.distinctFrom, noRepeat]
  | cons v rest ih =>
    by_cases h : previous = some v
    · simpa [rpl.distinctFrom, h] using ih (some v)
    · obtain ⟨hchain, hhead⟩ := ih (some v)
      simp only [rpl.distinctFrom, h, if_false]
      refine ⟨?_, ?_⟩
      · cases hL : rpl.distinctFrom (some v) rest with
        | nil => rfl
        | cons w tail =>
          rw [hL] at hchain hhead
          have hne : v ≠ w := by
            intro hvw
            exact hhead w rfl (by rw [hvw])
          simp [noRepeat, hne, hchain]
      · intro x hx hp
        simp only [List.head?_cons, Option.some.injEq] at hx
        exact h (by rw [hp, hx])

theorem getLast?_distinctFrom (v : Bool) (rest : List Bool) :
    (v :: rpl.distinctFrom (some v) rest).getLast? = (v :: rest).getLast? := by
  induction rest generalizing v with
  | nil => rfl
  | cons w tail ih =>
    by_cases h : v = w
    · subst h
      simp only [rpl.distinctFrom, if_true, List.getLast?_cons_cons]
      exact ih v
    · have h2 : ¬ (some v = some w) := fun hc => h (Option.some.inj hc)
      simp only [rpl.distinctFrom, h2, if_false, List.getLast?_cons_cons]
      exact ih w

/-! ## Theorems -/

/-- C1: for a present state `CheckEditCloudPassword` returns, and its boolean is true exactly
when `unknownAlgorithm` is false and both `newPassword` and `newSecureSecret` are set; with
`unknownAlgorithm` true it returns false whatever the other fields; and neither the boolean nor
the effects depend on `request`, `hint`, `hasRecovery`, `notEmptyPassport` or
`unconfirmedPattern`. -/
theorem CheckEditCloudPassword_spec (current : CloudPasswordState) :
    (∃ result, CheckEditCloudPassword (some current) = some result
      ∧ (result.1 = true ↔
          (current.unknownAlgorithm = false ∧ current.newPassword ≠ none
            ∧ current.newSecureSecret ≠ none)))
    ∧ Option.map Prod.fst
        (CheckEditCloudPassword (some { current with unknownAlgorithm := true })) = some false
    ∧ ∀ (request : CloudPasswordCheckRequest) (hint : QString) (hasRecovery : Bool)
        (notEmptyPassport : Bool) (unconfirmedPattern : QString),
        CheckEditCloudPassword (some { current with
          request := request, hint := hint, hasRecovery := hasRecovery,
          notEmptyPassport := notEmptyPassport, unconfirmedPattern := unconfirmedPattern })
        = CheckEditCloudPassword (some current) := by
  obtain ⟨request, unknownAlgorithm, hasRecovery, notEmptyPassport, newPassword,
    newSecureSecret, hint, unconfirmedPattern⟩ := current
  refine ⟨?_, ?_, ?_⟩
  · cases unknownAlgorithm <;> cases newPassword <;> cases newSecureSecret <;>
      simp [CheckEditCloudPassword]
  · simp [CheckEditCloudPassword]
  · intro _ _ _ _ _
    simp [CheckEditCloudPassword]

/-- C2: the privacy string is the label of the option (`lang` of the key for Everyone, Contacts
or Nobody), alone when both lists are empty, and otherwise followed by " (" … ")" around "-N"
(N the size of the never list, only when N > 0) and "+M" (M the size of the always list, only
when M > 0), in that order and separated by ", ". With the English labels, (Everyone, 0, 0)
gives "Everyone", (Contacts, 3, 0) gives "Contacts (-3)" and (Nobody, 0, 5) gives
"Nobody (+5)". -/
theorem PrivacyString_spec (lang : LangKey → QString) (value : Privacy) :
    PrivacyString lang value
      = (let label := lang (match value.option with
            | .Everyone => LangKey.lng_edit_privacy_everyone
            | .Contacts => LangKey.lng_edit_privacy_contacts
            | .Nobody => LangKey.lng_edit_privacy_nobody)
         let n := value.never.length
         let m := value.always.length
         if n = 0 ∧ m = 0 then label
         else if m = 0 then label ++ " (" ++ ("-" ++ Nat.repr n) ++ ")"
         else if n = 0 then label ++ " (" ++ ("+" ++ Nat.repr m) ++ ")"
         else label ++ " (" ++ (("-" ++ Nat.repr n) ++ ", " ++ ("+" ++ Nat.repr m)) ++ ")")
    ∧ PrivacyString langEn { option := .Everyone, always := [], never := [] } = "Everyone"
    ∧ PrivacyString langEn { option := .Contacts, always := [], never := [7, 8, 9] }
        = "Contacts (-3)"
    ∧ PrivacyString langEn { option := .Nobody, always := [1, 2, 3, 4, 5], never := [] }
        = "Nobody (+5)" := by
  refine ⟨?_, by decide, by decide, by decide⟩
  obtain ⟨option, always, never⟩ := value
  by_cases hn : never.length = 0 <;> by_cases hm : always.length = 0 <;>
    simp [PrivacyString, PrivacyString.base, QString.number, QStringList.join, hn, hm]

/-- C3: the value the `has` stream derives from a state is true exactly when `request` is set,
or `unknownAlgorithm` holds, or `unconfirmedPattern` is non-empty; the `unconfirmed` stream
derives, after its seed, one value per state that is true exactly when `unconfirmedPattern` is
non-empty. For the state with no request and pattern "a***@b.com" both derived values are
true. -/
theorem SetupCloudPassword_derived_spec (state : CloudPasswordState)
    (passwordState : List CloudPasswordState) :
    (SetupCloudPassword.hasOfState state = true ↔
      (state.request ≠ none ∨ state.unknownAlgorithm = true ∨ state.unconfirmedPattern ≠ ""))
    ∧ SetupCloudPassword.unconfirmed passwordState
        = true :: passwordState.map (fun st => decide (st.unconfirmedPattern ≠ ""))
    ∧ SetupCloudPassword.has passwordState
        = rpl.distinct_until_changed (false :: passwordState.map (fun st =>
            decide (st.request ≠ none ∨ st.unknownAlgorithm = true ∨ st.unconfirmedPattern ≠ "")))
    ∧ SetupCloudPassword.hasOfState pendingState = true
    ∧ SetupCloudPassword.unconfirmed [pendingState] = [true, true]
    ∧ SetupCloudPassword.has [pendingState] = [false, true] := by
  have hhas : ∀ st : CloudPasswordState, SetupCloudPassword.hasOfState st
      = decide (st.request ≠ none ∨ st.unknownAlgorithm = true ∨ st.unconfirmedPattern ≠ "") := by
    intro st
    cases hb : QString.isEmpty st.unconfirmedPattern
    · have := (QString.isEmpty_eq_false_iff _).mp hb
      simp [SetupCloudPassword.hasOfState, hb, this]
    · have := (QString.isEmpty_iff _).mp hb
      have he : QString.isEmpty "" = true := rfl
      cases hr : st.request <;> simp [SetupCloudPassword.hasOfState, this, hr, he]
  have hunc : ∀ st : CloudPasswordState, (!QString.isEmpty st.unconfirmedPattern)
      = decide (st.unconfirmedPattern ≠ "") := by
    intro st
    cases hb : QString.isEmpty st.unconfirmedPattern
    · have := (QString.isEmpty_eq_false_iff _).mp hb
      simp [this]
    · have := (QString.isEmpty_iff _).mp hb
      simp [this]
  refine ⟨?_, ?_, ?_, by decide, by decide, by decide⟩
  · rw [hhas]; simp
  · simp only [SetupCloudPassword.unconfirmed, SetupCloudPassword.pattern, rpl.then, rpl.single,
      rpl.map, List.map_map, List.singleton_append]
    congr 1
    apply List.map_congr_left
    intro st _
    exact hunc st
  · simp only [SetupCloudPassword.has, rpl.then, rpl.single, rpl.map, List.singleton_append]
    congr 2
    apply List.map_congr_left
    intro st _
    exact hhas st

/-- C4 fails as stated: in the state with no request and a pending pattern "a***@b.com" both
no-password and unconfirmed hold, so it is not the case that exactly one of the three predicates
holds. This is the state `RemoveCloudPassword` handles by clearing the unconfirmed password. -/
theorem exactlyOne_situation_counterexample :
    noPassword pendingState = true ∧ isUnconfirmed pendingState = true
      ∧ isConfirmed pendingState = false
      ∧ exactlyOne (noPassword pendingState) (isUnconfirmed pendingState)
          (isConfirmed pendingState) = false
      ∧ RemoveCloudPassword (some pendingState) [] = some [Action.clearUnconfirmedPassword] := by
  decide

/-- C4 amended: for every state at least one of no-password, unconfirmed, confirmed holds;
confirmed excludes the other two; and exactly one holds unless `request` is absent while
`unconfirmedPattern` is non-empty, in which case no-password and unconfirmed hold together. -/
theorem situation_spec (state : CloudPasswordState) :
    (noPassword state = true ↔ state.request = none)
    ∧ (isUnconfirmed state = true ↔ state.unconfirmedPattern ≠ "")
    ∧ (isConfirmed state = true ↔ (state.request ≠ none ∧ state.unconfirmedPattern = ""))
    ∧ (noPassword state = true ∨ isUnconfirmed state = true ∨ isConfirmed state = true)
    ∧ (isConfirmed state = true ↔
        (noPassword state = false ∧ isUnconfirmed state = false))
    ∧ (exactlyOne (noPassword state) (isUnconfirmed state) (isConfirmed state) = true ↔
        ¬ (state.request = none ∧ state.unconfirmedPattern ≠ ""))
    ∧ ((noPassword state = true ∧ isUnconfirmed state = true) ↔
        (state.request = none ∧ state.unconfirmedPattern ≠ "")) := by
  have he := QString.isEmpty_iff state.unconfirmedPattern
  cases hb : QString.isEmpty state.unconfirmedPattern <;> rw [hb] at he <;>
    cases hr : state.request <;>
    simp_all [noPassword, isUnconfirmed, isConfirmed, exactlyOne]

/-- C5: with `request` absent `RemoveCloudPassword` performs the single action
`clearUnconfirmedPassword` (no box, no reload, whatever a box would have emitted); with
`request` present it first opens the password box with `turningOff` true and the state's
`request`, `newPassword`, `hasRecovery`, `notEmptyPassport`, `hint`, `newSecureSecret`
unchanged, never performs `clearUnconfirmedPassword`, and opens no second box. -/
theorem RemoveCloudPassword_spec (current : CloudPasswordState) (r : Nat)
    (events : List BoxEvent) :
    RemoveCloudPassword (some { current with request := none }) events
      = some [Action.clearUnconfirmedPassword]
    ∧ (∃ rest, RemoveCloudPassword (some { current with request := some r }) events
        = some (Action.showPasscodeBox
            { request := some r
              newPassword := current.newPassword
              hasRecovery := current.hasRecovery
              notEmptyPassport := current.notEmptyPassport
              hint := current.hint
              newSecureSecret := current.newSecureSecret
              turningOff := true } :: rest)
        ∧ Action.clearUnconfirmedPassword ∉ rest
        ∧ ∀ a ∈ rest, a = Action.reloadPasswordState) := by
  refine ⟨by simp [RemoveCloudPassword], boxSubscription events, ?_, ?_, ?_⟩
  · simp [RemoveCloudPassword]
  · rw [boxSubscription_eq]
    intro h
    have := List.eq_of_mem_replicate h
    exact Action.noConfusion this
  · rw [boxSubscription_eq]
    intro a h
    exact List.eq_of_mem_replicate h

/-- C6: the subscription attached to the password box by `EditCloudPassword` and by
`RemoveCloudPassword` (request present) issues one `reloadPasswordState` per event the box
emits, whichever of the two kinds each event is: each function performs the opening of its box
followed by exactly as many reloads as events, so the number of reloads equals the number of
events, every further event adds exactly one reload, and with no event there is no reload. -/
theorem boxSubscription_spec (current : CloudPasswordState) (r : Nat)
    (events : List BoxEvent) (e : BoxEvent) :
    Option.map (List.count Action.reloadPasswordState) (EditCloudPassword (some current) events)
      = some events.length
    ∧ Option.map (List.count Action.reloadPasswordState)
        (RemoveCloudPassword (some { current with request := some r }) events)
      = some events.length
    ∧ Option.map List.tail (EditCloudPassword (some current) events)
      = some (List.replicate events.length Action.reloadPasswordState)
    ∧ Option.map List.tail
        (RemoveCloudPassword (some { current with request := some r }) events)
      = some (List.replicate events.length Action.reloadPasswordState)
    ∧ boxSubscription (events ++ [e]) = boxSubscription events ++ [Action.reloadPasswordState]
    ∧ Option.map (fun trace => decide (Action.reloadPasswordState ∈ trace))
        (EditCloudPassword (some current) []) = some false
    ∧ Option.map (fun trace => decide (Action.reloadPasswordState ∈ trace))
        (RemoveCloudPassword (some { current with request := some r }) []) = some false := by
  refine ⟨?_, ?_, ?_, ?_, ?_, ?_, ?_⟩
  · simp [EditCloudPassword, boxSubscription_eq, List.count_replicate]
  · simp [RemoveCloudPassword, boxSubscription_eq, List.count_replicate]
  · simp [EditCloudPassword, boxSubscription_eq]
  · simp [RemoveCloudPassword, boxSubscription_eq]
  · simp [boxSubscription, rpl.map, rpl.start_with_next]
  · simp [EditCloudPassword, boxSubscription_eq]
  · simp [RemoveCloudPassword, boxSubscription_eq]

/-- C7: for an auto-lock value `s > 0` the label is the minutes phrase with count ⌊s / 60⌋ when
`s mod 3600 ≠ 0`, and the hours phrase with count `s / 3600` when `s mod 3600 = 0`; 90 gives
the minutes phrase with count 1 and 3600 the hours phrase with count 1. -/
theorem autolockValue_spec (minutes hours : Int → QString) (s : Int) (h : 0 < s) :
    autolockValue minutes hours s
      = (if s % 3600 ≠ 0 then minutes ⌊(s : ℚ) / 60⌋ else hours (s / 3600))
    ∧ autolockValue minutes hours 90 = minutes 1
    ∧ autolockValue minutes hours 3600 = hours 1 := by
  refine ⟨?_, rfl, rfl⟩
  have h0 : (0 : Int) ≤ s := le_of_lt h
  have hfloor : ⌊(s : ℚ) / 60⌋ = s / 60 := by
    have := Rat.floor_intCast_div_natCast s 60
    simpa using this
  unfold autolockValue
  rw [Int.tmod_eq_emod h0 (by decide), Int.tdiv_eq_ediv h0 (by decide),
    Int.tdiv_eq_ediv h0 (by decide), hfloor]

theorem autolockValue_spec_witness :
    (0 : Int) < 90
      ∧ autolockValue lng_passcode_autolock_minutes_en lng_passcode_autolock_hours_en 90
          = "1 minutes" :=
  ⟨by decide,
    (autolockValue_spec lng_passcode_autolock_minutes_en lng_passcode_autolock_hours_en 90
      (by decide)).2.1.trans (by decide)⟩

/-- C8: on an application-state change `reloadOnActivation` issues exactly one
`reloadPasswordState` when the new state is `ApplicationActive` and the waiting label is toggled
on, and nothing otherwise. With the state (no request, pattern "a***@b.com") delivered, the
label is toggled on, and one activation yields exactly one reload. -/
theorem reloadOnActivation_spec (labelToggled : Bool) (state : ApplicationState) :
    SetupCloudPassword.reloadOnActivation labelToggled state
      = (if state = ApplicationState.ApplicationActive ∧ labelToggled = true
          then [Action.reloadPasswordState] else [])
    ∧ SlideWrap.toggled (SetupCloudPassword.unconfirmed [pendingState]) = true
    ∧ SetupCloudPassword.reloadOnActivation
        (SlideWrap.toggled (SetupCloudPassword.unconfirmed [pendingState]))
        ApplicationState.ApplicationActive = [Action.reloadPasswordState] := by
  refine ⟨?_, by decide, by decide⟩
  cases labelToggled <;> cases state <;> decide

/-- C9 fails as stated: the `unconfirmed` stream has no distinct-until-changed stage. When the
first state delivered has a pending pattern the waiting label receives true (seed) and true
again, the change button false and false again; two states with an empty pattern in a row give
the label false twice. -/
theorem unconfirmed_repeats_counterexample :
    SetupCloudPassword.unconfirmed [pendingState] = [true, true]
      ∧ noRepeat (SetupCloudPassword.unconfirmed [pendingState]) = false
      ∧ SetupCloudPassword.changeToggle [pendingState] = [false, false]
      ∧ noRepeat (SetupCloudPassword.changeToggle [pendingState]) = false
      ∧ SetupCloudPassword.unconfirmed [confirmedState, confirmedState] = [true, false, false] := by
  decide

/-- C9 amended: the `has` stream (disable button, separators) applies distinct-until-changed:
it starts with its seed false, never delivers the same value twice in a row, and ends with the
value derived from the last state. The `unconfirmed` stream (waiting label) and its negation
(change button) deliver their seed and then one derived value per state, unfiltered. -/
theorem SetupCloudPassword_streams_spec (passwordState : List CloudPasswordState) :
    noRepeat (SetupCloudPassword.has passwordState) = true
    ∧ (SetupCloudPassword.has passwordState).head? = some false
    ∧ (SetupCloudPassword.has passwordState).getLast?
        = (false :: passwordState.map SetupCloudPassword.hasOfState).getLast?
    ∧ SetupCloudPassword.unconfirmed passwordState = true :: passwordState.map isUnconfirmed
    ∧ SetupCloudPassword.changeToggle passwordState
        = false :: passwordState.map (fun st => QString.isEmpty st.unconfirmedPattern) := by
  have hunfold : SetupCloudPassword.has passwordState
      = false :: rpl.distinctFrom (some false)
          (passwordState.map SetupCloudPassword.hasOfState) := by
    simp [SetupCloudPassword.has, rpl.distinct_until_changed, rpl.then, rpl.single, rpl.map,
      rpl.distinctFrom]
  refine ⟨?_, ?_, ?_, ?_, ?_⟩
  · have h := (noRepeat_distinctFrom none
      (false :: passwordState.map SetupCloudPassword.hasOfState)).1
    simpa [SetupCloudPassword.has, rpl.distinct_until_changed, rpl.then, rpl.single, rpl.map]
      using h
  · rw [hunfold]; rfl
  · rw [hunfold]; exact getLast?_distinctFrom false _
  · simp [SetupCloudPassword.unconfirmed, SetupCloudPassword.pattern, rpl.then, rpl.single,
      rpl.map, isUnconfirmed, Function.comp_def]
  · simp [SetupCloudPassword.changeToggle, SetupCloudPassword.unconfirmed,
      SetupCloudPassword.pattern, rpl.then, rpl.single, rpl.map, Function.comp_def]

/-- C10: whenever the change button is shown (the last value given to its toggle is true, that
is the last `unconfirmed` value is false) or the disable button is shown (the last `has` value is
true), at least one state has been delivered, so the store's current value is present and
`CheckEditCloudPassword` passes its assertion. Before any state arrives both buttons are
hidden. -/
theorem buttons_shown_spec (passwordState : List CloudPasswordState) :
    ((SlideWrap.toggled (SetupCloudPassword.changeToggle passwordState) = true
        ∨ SlideWrap.toggled (SetupCloudPassword.has passwordState) = true) →
      passwordState ≠ []
        ∧ (passwordStateCurrent passwordState).isSome = true
        ∧ (CheckEditCloudPassword (passwordStateCurrent passwordState)).isSome = true)
    ∧ SlideWrap.toggled (SetupCloudPassword.changeToggle []) = false
    ∧ SlideWrap.toggled (SetupCloudPassword.has []) = false := by
  refine ⟨?_, by decide, by decide⟩
  intro h
  cases hps : passwordState with
  | nil =>
    subst hps
    revert h
    decide
  | cons st rest =>
    have hlast : ∃ last, (st :: rest).getLast? = some last :=
      ⟨(st :: rest).getLast (by simp), List.getLast?_eq_getLast _ (by simp)⟩
    obtain ⟨last, hl⟩ := hlast
    refine ⟨by simp, ?_, ?_⟩
    · simp [passwordStateCurrent, hl]
    · simp only [passwordStateCurrent, hl, CheckEditCloudPassword]
      split <;> rfl

theorem buttons_shown_spec_witness :
    SlideWrap.toggled (SetupCloudPassword.has [pendingState]) = true
      ∧ (CheckEditCloudPassword (passwordStateCurrent [pendingState])).isSome = true :=
  ⟨by decide, ((buttons_shown_spec [pendingState]).1 (Or.inr (by decide))).2.2⟩

end Settings
